import Mathlib

/-!
Shallow embedding of the regenerative rocket engine notebook
(RegenerativeRocketEngineDesign-ThermodynamicsProject.ipynb).

The notebook is a straight-line numeric pipeline: fixed scalar constants,
a handful of CoolProp PropsSI property lookups, and closed-form arithmetic.
We embed the arithmetic exactly over ℚ (the Python floats carry exact
decimal literals here) and treat the external CoolProp property database as
an abstract oracle: a structure of functions, one per query shape actually
used by the notebook.  Every pipeline value is then a function of the
oracle, and the theorems quantify over all oracles, so they hold for the
real property database in particular.

The exhaust-velocity computation uses the Python expression
`x ** 0.5`, which for a negative float base silently returns a complex
number (the principal square root, approximately i * sqrt (-x)); it does
not raise.  We model it by a total function into ℂ.
-/

namespace RegenRocket

/-- The three fluids named in the notebook. -/
inductive Fluid
| ethanol
| oxygen
| CO2
deriving DecidableEq

/-- Abstract CoolProp oracle: one field per PropsSI query shape the notebook
performs (output quantity, input pair).  CoolProp treats the outputs
labelled H and Hmass identically (mass-specific enthalpy), so each
(output, input-pair) shape appears once.  Arguments: fluid, then the two
numeric inputs in the order the notebook passes them. -/
structure PropOracle where
  H_PQ : Fluid → ℚ → ℚ → ℚ
  T_PQ : Fluid → ℚ → ℚ → ℚ
  S_PQ : Fluid → ℚ → ℚ → ℚ
  S_PH : Fluid → ℚ → ℚ → ℚ
  T_PH : Fluid → ℚ → ℚ → ℚ
  T_PS : Fluid → ℚ → ℚ → ℚ
  H_PS : Fluid → ℚ → ℚ → ℚ

/-- CoolProp PropsSI with output quantity T and input pair (P, T): the
requested output is one of the inputs, so the query returns that input
unchanged (a CoolProp trivial query).  This is the one lookup whose value
is fixed by the query contract itself, independent of the fluid tables. -/
def T_PT (p t : ℚ) (f : Fluid) : ℚ := t

/-- mDot_E = 0.125 kg/s (ethanol mass flow rate). -/
def mDot_E : ℚ := 0.125

/-- mDot_O2 = 0.125 kg/s (oxygen mass flow rate). -/
def mDot_O2 : ℚ := 0.125

/-- mDot_Tot = mDot_E + mDot_O2. -/
def mDot_Tot : ℚ := mDot_E + mDot_O2

/-- mm_E = 0.046068 kg/mol (ethanol molar mass). -/
def mm_E : ℚ := 0.046068

/-- mm_O2 = 0.032 kg/mol (oxygen molar mass). -/
def mm_O2 : ℚ := 0.032

/-- Q_combustion = 1350 kJ/mol (heat released by combustion). -/
def Q_combustion : ℚ := 1350

/-- The notebook formula Q_out = ((mDot_O2 / mm_O2) / 3) * Q_combustion,
generalized over the oxidizer mass flow rate (kJ/s). -/
def Q_out_of (mdotO2 : ℚ) : ℚ := ((mdotO2 / mm_O2) / 3) * Q_combustion

/-- Q_out at the notebook value mDot_O2 = 0.125 kg/s. -/
def Q_out : ℚ := Q_out_of mDot_O2

/-- p3_Pa = 1200000 Pa (injector feed pressure). -/
def p3_Pa : ℚ := 1200000

/-- x3 = 0 (saturated-liquid quality at the injector). -/
def x3 : ℚ := 0

/-- p1_Pa = 300000 Pa (tank pressure). -/
def p1_Pa : ℚ := 300000

/-- All notebook variables live after the state-determination and pump-work
cells have run (one record per scenario run).  Field names follow the
notebook variables.  QabsFuel_J is the fuel-side absorbed heat (J/s): the
numerator actually applied in the h2 energy balance; it is Q_inWall_J in
the baseline cell and Q_inWall_J * 0.05 in the improved cell (the
HeatBudget amount absorbed by the fuel stream). -/
structure RunState where
  h3_JperKg : ℚ
  t3_K : ℚ
  Q_inWall : ℚ
  Q_inWall_J : ℚ
  QabsFuel_J : ℚ
  h2_JperKg : ℚ
  s2_JperKgK : ℚ
  t2_K : ℚ
  t1_K : ℚ
  h1_JperKg : ℚ
  work_EPump : ℚ
  h2_O2_JperKg : ℚ
  s2_O2_JperKgK : ℚ
  h1_O2_JperKg : ℚ
  T1_O2_K : ℚ
  work_OPump : ℚ

/-- The baseline pipeline (notebook cells: heat release, state 3, state 2,
state 1, pump work for both streams), generalized over the two mass flow
rates and the wall-heat fraction; the notebook instantiates
mdotE = mdotO2 = 0.125 and frac = 0.05.  Each let-binding mirrors one
notebook assignment in source order. -/
def baselineRunP (O : PropOracle) (mdotE mdotO2 frac : ℚ) : RunState :=
  let qOut := Q_out_of mdotO2
  let qInWall := qOut * frac
  let qInWallJ := qInWall * 1000
  let h3 := O.H_PQ Fluid.ethanol p3_Pa x3
  let t3 := O.T_PQ Fluid.ethanol p3_Pa x3
  let h2 := h3 - qInWallJ / mdotE
  let s2 := O.S_PH Fluid.ethanol p3_Pa h2
  let t2 := O.T_PH Fluid.ethanol p3_Pa h2
  let t1 := O.T_PS Fluid.ethanol p1_Pa s2
  let h1 := O.H_PS Fluid.ethanol p1_Pa s2
  let workE := (1 / mdotE) * (h2 - h1)
  let h2O := O.H_PQ Fluid.oxygen p3_Pa 0
  let s2O := O.S_PQ Fluid.oxygen p3_Pa 0
  let h1O := O.H_PS Fluid.oxygen p1_Pa s2O
  let t1O := O.T_PS Fluid.oxygen p1_Pa s2O
  let workO := (1 / mdotO2) * (h2O - h1O)
  ⟨h3, t3, qInWall, qInWallJ, qInWallJ, h2, s2, t2, t1, h1, workE,
    h2O, s2O, h1O, t1O, workO⟩

/-- The baseline run at the notebook mass flow rates, with the wall-heat
fraction as parameter (the notebook uses 0.05). -/
def baselineRun (O : PropOracle) (frac : ℚ) : RunState :=
  baselineRunP O mDot_E mDot_O2 frac

/-- The improved-scenario cell: it executes after the baseline cells
(frac 0.05) and overwrites Q_inWall, Q_inWall_J and the fuel-side state
variables; the oxygen-side variables keep their baseline values.  The
notebook sets Q_inWall = Q_out * 0.5 and then
h2 = h3 - (Q_inWall_J * 0.05) / mDot_E, reapplying the 0.05 factor; the
first factor (0.5 in the notebook) is the frac parameter here. -/
def improvedRun (O : PropOracle) (frac : ℚ) : RunState :=
  let b := baselineRun O 0.05
  let qInWall := Q_out * frac
  let qInWallJ := qInWall * 1000
  let h2 := b.h3_JperKg - (qInWallJ * 0.05) / mDot_E
  let s2 := O.S_PH Fluid.ethanol p3_Pa h2
  let t2 := O.T_PH Fluid.ethanol p3_Pa h2
  let t1 := O.T_PS Fluid.ethanol p1_Pa s2
  let h1 := O.H_PS Fluid.ethanol p1_Pa s2
  let workE := (1 / mDot_E) * (h2 - h1)
  ⟨b.h3_JperKg, b.t3_K, qInWall, qInWallJ, qInWallJ * 0.05, h2, s2, t2, t1,
    h1, workE, b.h2_O2_JperKg, b.s2_O2_JperKgK, b.h1_O2_JperKg, b.T1_O2_K,
    b.work_OPump⟩

/-- h1_gas = (h3_JperKg * mDot_E + h2_O2_JperKg * mDot_O2) / mDot_Tot,
the mass-flow-weighted mixed exhaust enthalpy, read from whichever run
state the notebook last produced. -/
def h1_gas (s : RunState) : ℚ :=
  (s.h3_JperKg * mDot_E + s.h2_O2_JperKg * mDot_O2) / mDot_Tot

/-- h2_gas = h1_gas + (Q_out * 1000 * 0.95) / mDot_Tot (the global Q_out is
unchanged by either scenario cell). -/
def h2_gas (s : RunState) : ℚ :=
  h1_gas s + (Q_out * 1000 * 0.95) / mDot_Tot

/-- h3_gas = PropsSI with output T and inputs P = 101325, T = 973 * 0.8 for
CO2: a trivial query, returning the temperature input 778.4 itself (a
kelvin value subsequently used as an enthalpy). -/
def h3_gas : ℚ := T_PT 101325 (973 * 0.8) Fluid.CO2

/-- Python `x ** 0.5` on a float: the nonnegative square root for x ≥ 0 and
the principal complex square root i * sqrt (-x) for x < 0.  Python 3
silently returns the complex value for a negative base; it never raises. -/
noncomputable def powHalf (x : ℚ) : ℂ :=
  if 0 ≤ x then ((Real.sqrt x : ℝ) : ℂ)
  else Complex.I * ((Real.sqrt (-(x : ℝ)) : ℝ) : ℂ)

/-- V = (2 * (h2_gas - h3_gas)) ** 0.5. -/
noncomputable def V (s : RunState) : ℂ := powHalf (2 * (h2_gas s - h3_gas))

/-- M = V / 343. -/
noncomputable def Mach (s : RunState) : ℂ := V s / 343

/-- Thrust_N = mDot_Tot * V (exit pressure assumed equal to ambient, so the
pressure-thrust term vanishes). -/
noncomputable def Thrust_N (s : RunState) : ℂ := (mDot_Tot : ℂ) * V s

/-- A fluid state as a coordinate record (pressure, temperature, specific
enthalpy, specific entropy). -/
structure FluidState where
  P : ℚ
  T : ℚ
  H : ℚ
  S : ℚ

/-- The tank state of a stream: the notebook fixes it by the property
lookups T(P = p1_Pa, S = sIn) and H(P = p1_Pa, S = sIn); a (P, S) query
defines the state whose entropy coordinate is the queried sIn. -/
def tankState (O : PropOracle) (f : Fluid) (sIn : ℚ) : FluidState :=
  ⟨p1_Pa, O.T_PS f p1_Pa sIn, O.H_PS f p1_Pa sIn, sIn⟩

/-- The fuel pre-heat-exchanger state (state 2) of a run, assembled from the
notebook variables (pressure is p3_Pa: no pressure loss assumed). -/
def preHEFuelState (s : RunState) : FluidState :=
  ⟨p3_Pa, s.t2_K, s.h2_JperKg, s.s2_JperKgK⟩

/-- The oracle returning 0 for every lookup (a concrete test oracle). -/
def zeroOracle : PropOracle :=
  ⟨fun _ _ _ => 0, fun _ _ _ => 0, fun _ _ _ => 0, fun _ _ _ => 0,
    fun _ _ _ => 0, fun _ _ _ => 0, fun _ _ _ => 0⟩

/-- An oracle whose saturated-liquid enthalpy lookups return -10000000 J/kg
and whose other lookups return 0: it makes the pre-expansion exhaust
enthalpy fall below the assumed post-expansion value. -/
def coldOracle : PropOracle :=
  ⟨fun _ _ _ => -10000000, fun _ _ _ => 0, fun _ _ _ => 0, fun _ _ _ => 0,
    fun _ _ _ => 0, fun _ _ _ => 0, fun _ _ _ => 0⟩

/-- An oracle returning 1 for every lookup (a second concrete test oracle). -/
def oneOracle : PropOracle :=
  ⟨fun _ _ _ => 1, fun _ _ _ => 1, fun _ _ _ => 1, fun _ _ _ => 1,
    fun _ _ _ => 1, fun _ _ _ => 1, fun _ _ _ => 1⟩


/-- Claim C1: energy-balance invariant of the state back-computation: for
any heat-split fraction in [0,1], the pre-heat-exchanger enthalpy equals
the injector enthalpy minus the fuel-side absorbed heat per unit mass
(h2 = h3 - QabsFuel_J / mDot_E), exactly (hence to floating-point
tolerance), in both the baseline and the improved scenario runs. -/
theorem C1_energy_balance (O : PropOracle) (frac : ℚ)
    (ha : 0 ≤ frac) (hb : frac ≤ 1) :
    (baselineRun O frac).h2_JperKg
      = (baselineRun O frac).h3_JperKg - (baselineRun O frac).QabsFuel_J / mDot_E
    ∧ (improvedRun O frac).h2_JperKg
      = (improvedRun O frac).h3_JperKg - (improvedRun O frac).QabsFuel_J / mDot_E :=
  ⟨rfl, rfl⟩

/-- Witness for C1 at the notebook baseline fraction 0.05 and the zero
oracle. -/
theorem C1_energy_balance_witness :
    ((0 : ℚ) ≤ 0.05 ∧ (0.05 : ℚ) ≤ 1)
    ∧ ((baselineRun zeroOracle 0.05).h2_JperKg
        = (baselineRun zeroOracle 0.05).h3_JperKg
            - (baselineRun zeroOracle 0.05).QabsFuel_J / mDot_E
      ∧ (improvedRun zeroOracle 0.05).h2_JperKg
        = (improvedRun zeroOracle 0.05).h3_JperKg
            - (improvedRun zeroOracle 0.05).QabsFuel_J / mDot_E) :=
  ⟨⟨by norm_num, by norm_num⟩,
    C1_energy_balance zeroOracle 0.05 (by norm_num) (by norm_num)⟩

/-- Claim C2: in the improved scenario, the fuel-side enthalpy drop at the
pre-heat-exchanger state equals 0.5 * 0.05 * (total combustion heat in J/s)
divided by the fuel mass flow rate: the compound factor (wall heat is
Q_out * 0.5, then 0.05 is reapplied in the enthalpy drop). -/
theorem C2_compound_factor (O : PropOracle) :
    (improvedRun O 0.5).h3_JperKg - (improvedRun O 0.5).h2_JperKg
      = (0.5 * 0.05 * (Q_out * 1000)) / mDot_E := by
  show O.H_PQ Fluid.ethanol p3_Pa x3
      - (O.H_PQ Fluid.ethanol p3_Pa x3 - (Q_out * 0.5 * 1000 * 0.05) / mDot_E)
      = (0.5 * 0.05 * (Q_out * 1000)) / mDot_E
  ring

/-- Claim C4: isentropic-pump invariant: for the fuel stream and the
oxidizer stream, in both scenario runs, the tank state is fixed by a
property lookup at (tank pressure, pre-heat-exchanger entropy), so its
entropy coordinate equals the pre-heat-exchanger entropy exactly; the
notebook variables t1_K, h1_JperKg, T1_O2_K, h1_O2_JperKg are exactly the
temperature and enthalpy coordinates of that tank state. -/
theorem C4_isentropic_tank (O : PropOracle) (frac : ℚ) :
    (tankState O Fluid.ethanol (baselineRun O frac).s2_JperKgK).S
        = (preHEFuelState (baselineRun O frac)).S
    ∧ (baselineRun O frac).t1_K
        = (tankState O Fluid.ethanol (baselineRun O frac).s2_JperKgK).T
    ∧ (baselineRun O frac).h1_JperKg
        = (tankState O Fluid.ethanol (baselineRun O frac).s2_JperKgK).H
    ∧ (tankState O Fluid.ethanol (improvedRun O frac).s2_JperKgK).S
        = (preHEFuelState (improvedRun O frac)).S
    ∧ (improvedRun O frac).t1_K
        = (tankState O Fluid.ethanol (improvedRun O frac).s2_JperKgK).T
    ∧ (improvedRun O frac).h1_JperKg
        = (tankState O Fluid.ethanol (improvedRun O frac).s2_JperKgK).H
    ∧ (tankState O Fluid.oxygen (baselineRun O frac).s2_O2_JperKgK).S
        = (baselineRun O frac).s2_O2_JperKgK
    ∧ (baselineRun O frac).T1_O2_K
        = (tankState O Fluid.oxygen (baselineRun O frac).s2_O2_JperKgK).T
    ∧ (baselineRun O frac).h1_O2_JperKg
        = (tankState O Fluid.oxygen (baselineRun O frac).s2_O2_JperKgK).H
    ∧ (tankState O Fluid.oxygen (improvedRun O frac).s2_O2_JperKgK).S
        = (improvedRun O frac).s2_O2_JperKgK
    ∧ (improvedRun O frac).T1_O2_K
        = (tankState O Fluid.oxygen (improvedRun O frac).s2_O2_JperKgK).T :=
  ⟨rfl, rfl, rfl, rfl, rfl, rfl, rfl, rfl, rfl, rfl, rfl⟩

/-- Claim C5: pump work for each stream is the literal arithmetic
(1 / mass flow rate) * (h_exit - h_inlet) with exit the pre-heat-exchanger
state and inlet the tank state: fuel pump in both scenario runs, oxidizer
pump in the baseline run. -/
theorem C5_pump_work (O : PropOracle) (frac : ℚ) :
    (baselineRun O frac).work_EPump
      = (1 / mDot_E) * ((baselineRun O frac).h2_JperKg - (baselineRun O frac).h1_JperKg)
    ∧ (improvedRun O frac).work_EPump
      = (1 / mDot_E) * ((improvedRun O frac).h2_JperKg - (improvedRun O frac).h1_JperKg)
    ∧ (baselineRun O frac).work_OPump
      = (1 / mDot_O2)
          * ((baselineRun O frac).h2_O2_JperKg - (baselineRun O frac).h1_O2_JperKg) :=
  ⟨rfl, rfl, rfl⟩

/-- Claim C6: the combustion heat release rate is (oxidizer molar flow
rate / 3) * 1350 kJ/mol, wall heat is that rate * 0.05 in the baseline,
and at the notebook values (oxidizer mass flow 0.125 kg/s, molar mass
0.032 kg/mol) the wall heat is 87.890625 kJ/s, within 0.001 of 87.89,
i.e. 87890.625 J/s. -/
theorem C6_combustion_heat (O : PropOracle) :
    Q_out = ((mDot_O2 / mm_O2) / 3) * Q_combustion
    ∧ Q_combustion = 1350
    ∧ (baselineRun O 0.05).Q_inWall = Q_out * 0.05
    ∧ (baselineRun O 0.05).Q_inWall = 87.890625
    ∧ |(baselineRun O 0.05).Q_inWall - 87.89| ≤ 0.001
    ∧ (baselineRun O 0.05).Q_inWall_J = 87890.625 := by
  refine ⟨rfl, rfl, rfl, ?_, ?_, ?_⟩
  · show Q_out_of mDot_O2 * 0.05 = 87.890625
    norm_num [Q_out_of, mDot_O2, mm_O2, Q_combustion]
  · show |Q_out_of mDot_O2 * 0.05 - 87.89| ≤ 0.001
    norm_num [abs_le, Q_out_of, mDot_O2, mm_O2, Q_combustion]
  · show Q_out_of mDot_O2 * 0.05 * 1000 = 87890.625
    norm_num [Q_out_of, mDot_O2, mm_O2, Q_combustion]

/-- Claim C7: exhaust velocity and thrust are identical whichever scenario
run the thrust cell reads its variables from, for every choice of the
scenario heat-split fractions: the thrust computation depends only on the
injector states, total mass flow rate and total combustion heat, none of
which vary between scenarios. -/
theorem C7_scenario_invariant (O : PropOracle) (f g : ℚ) :
    V (improvedRun O f) = V (baselineRun O g)
    ∧ Thrust_N (improvedRun O f) = Thrust_N (baselineRun O g) :=
  ⟨rfl, rfl⟩

/-- Claim C9 counterexample: no InvalidParameterError is raised before any
property lookup.  At parameters that the claim calls invalid (mass flow
rate -1 and fraction 2, outside [0,1]), the pipeline still returns an
ordinary numeric state whose value depends on the oracle lookups: two
different oracles give two different pre-heat-exchanger enthalpies.  Were
an error raised eagerly before any lookup, the outcome at these
parameters could not depend on the oracle at all. -/
theorem C9_counterexample :
    (-1 : ℚ) ≤ 0 ∧ (1 : ℚ) < 2
    ∧ (baselineRunP zeroOracle (-1) (-1) 2).h2_JperKg
        ≠ (baselineRunP oneOracle (-1) (-1) 2).h2_JperKg := by
  refine ⟨by norm_num, by norm_num, ?_⟩
  show (0 : ℚ) - Q_out_of (-1) * 2 * 1000 / (-1) ≠ 1 - Q_out_of (-1) * 2 * 1000 / (-1)
  norm_num [Q_out_of, mm_O2, Q_combustion]

/-- Claim C9 amended: the notebook performs no input validation at all:
for any parameters, including a non-positive mass flow rate or a fraction
outside [0,1], the pipeline performs its property lookups and computes the
usual formulas, returning ordinary numeric results; no error is raised. -/
theorem C9_no_validation (O : PropOracle) (mdotE mdotO2 frac : ℚ)
    (h : mdotE ≤ 0 ∨ frac < 0 ∨ 1 < frac) :
    (baselineRunP O mdotE mdotO2 frac).h3_JperKg = O.H_PQ Fluid.ethanol p3_Pa x3
    ∧ (baselineRunP O mdotE mdotO2 frac).h2_JperKg
        = O.H_PQ Fluid.ethanol p3_Pa x3 - Q_out_of mdotO2 * frac * 1000 / mdotE :=
  ⟨rfl, rfl⟩

/-- Witness for the amended C9 at mass flow -1 and fraction 2 with the
all-ones oracle. -/
theorem C9_no_validation_witness :
    ((-1 : ℚ) ≤ 0 ∨ (2 : ℚ) < 0 ∨ (1 : ℚ) < 2)
    ∧ (baselineRunP oneOracle (-1) (-1) 2).h3_JperKg
        = oneOracle.H_PQ Fluid.ethanol p3_Pa x3 :=
  ⟨Or.inl (by norm_num),
    (C9_no_validation oneOracle (-1) (-1) 2 (Or.inl (by norm_num))).1⟩

/-- Value of h3_gas: the trivial T query returns 973 * 0.8 = 778.4. -/
theorem h3_gas_val : h3_gas = 778.4 := by
  norm_num [h3_gas, T_PT]

/-- Pre-expansion exhaust enthalpy at the zero oracle: all lookups return
0, so only the combustion-heat term remains. -/
theorem h2_gas_zeroOracle : h2_gas (baselineRun zeroOracle 0.05) = 6679687.5 := by
  norm_num [h2_gas, h1_gas, baselineRun, baselineRunP, zeroOracle, Q_out,
    Q_out_of, mDot_Tot, mDot_E, mDot_O2, mm_O2, Q_combustion]

/-- Pre-expansion exhaust enthalpy at the coldOracle. -/
theorem h2_gas_coldOracle : h2_gas (baselineRun coldOracle 0.05) = -3320312.5 := by
  norm_num [h2_gas, h1_gas, baselineRun, baselineRunP, coldOracle, Q_out,
    Q_out_of, mDot_Tot, mDot_E, mDot_O2, mm_O2, Q_combustion]

/-- powHalf at a nonnegative argument is the nonnegative real square root. -/
theorem powHalf_of_nonneg {x : ℚ} (h : 0 ≤ x) :
    powHalf x = ((Real.sqrt x : ℝ) : ℂ) := by
  rw [powHalf, if_pos h]

/-- powHalf at a negative argument is the principal complex square root. -/
theorem powHalf_of_neg {x : ℚ} (h : x < 0) :
    powHalf x = Complex.I * ((Real.sqrt (-(x : ℝ)) : ℝ) : ℂ) := by
  rw [powHalf, if_neg (not_le.mpr h)]

/-- Claim C3: the thrust model computes the exhaust velocity as
sqrt (2 * (h_before - h_after)) with h_before the mixed injector-enthalpy
average plus (0.95 * combustion heat) / total mass flow and h_after the
post-expansion exhaust value h3_gas, and the thrust as total mass flow
rate times velocity (exit pressure assumed equal to ambient, so the
pressure-thrust term vanishes). -/
theorem C3_thrust_formula (s : RunState) (h : 0 ≤ h2_gas s - h3_gas) :
    h1_gas s = (s.h3_JperKg * mDot_E + s.h2_O2_JperKg * mDot_O2) / mDot_Tot
    ∧ V s = ((Real.sqrt (2 * (((h1_gas s + (Q_out * 1000 * 0.95) / mDot_Tot : ℚ) : ℝ)
          - (h3_gas : ℝ))) : ℝ) : ℂ)
    ∧ Thrust_N s = (mDot_Tot : ℂ) * V s := by
  refine ⟨rfl, ?_, rfl⟩
  have h2 : (0 : ℚ) ≤ 2 * (h2_gas s - h3_gas) := by linarith
  rw [V, powHalf_of_nonneg h2]
  have harg : ((2 * (h2_gas s - h3_gas) : ℚ) : ℝ)
      = 2 * (((h1_gas s + (Q_out * 1000 * 0.95) / mDot_Tot : ℚ) : ℝ) - (h3_gas : ℝ)) := by
    simp only [h2_gas]
    push_cast
    ring
  rw [harg]

/-- Witness for C3 at the zero oracle and the baseline fraction 0.05. -/
theorem C3_thrust_formula_witness :
    (0 : ℚ) ≤ h2_gas (baselineRun zeroOracle 0.05) - h3_gas
    ∧ Thrust_N (baselineRun zeroOracle 0.05)
        = (mDot_Tot : ℂ) * V (baselineRun zeroOracle 0.05) :=
  ⟨by rw [h2_gas_zeroOracle, h3_gas_val]; norm_num,
    (C3_thrust_formula (baselineRun zeroOracle 0.05)
      (by rw [h2_gas_zeroOracle, h3_gas_val]; norm_num)).2.2⟩

/-- Claim C8 amended: whenever the pre-expansion exhaust enthalpy is at
least the assumed post-expansion value, the velocity is real and the
thrust is real and non-negative.  In the opposite case the code raises no
error: the Python float power silently yields a complex velocity with
non-zero imaginary part (established concretely by C8_counterexample). -/
theorem C8_thrust_nonneg (s : RunState) (h : 0 ≤ h2_gas s - h3_gas) :
    (V s).im = 0 ∧ (Thrust_N s).im = 0 ∧ 0 ≤ (Thrust_N s).re := by
  have h2 : (0 : ℚ) ≤ 2 * (h2_gas s - h3_gas) := by linarith
  rw [Thrust_N, V, powHalf_of_nonneg h2]
  refine ⟨Complex.ofReal_im _, ?_, ?_⟩
  · simp [Complex.mul_im]
  · rw [Complex.mul_re]
    simp only [Complex.ratCast_im, Complex.ratCast_re, Complex.ofReal_im,
      Complex.ofReal_re, mul_zero, zero_mul, sub_zero]
    exact mul_nonneg (by norm_num [mDot_Tot, mDot_E, mDot_O2]) (Real.sqrt_nonneg _)

/-- Witness for the amended C8 at the zero oracle and fraction 0.05. -/
theorem C8_thrust_nonneg_witness :
    (0 : ℚ) ≤ h2_gas (baselineRun zeroOracle 0.05) - h3_gas
    ∧ ((V (baselineRun zeroOracle 0.05)).im = 0
      ∧ (Thrust_N (baselineRun zeroOracle 0.05)).im = 0
      ∧ 0 ≤ (Thrust_N (baselineRun zeroOracle 0.05)).re) :=
  ⟨by rw [h2_gas_zeroOracle, h3_gas_val]; norm_num,
    C8_thrust_nonneg (baselineRun zeroOracle 0.05)
      (by rw [h2_gas_zeroOracle, h3_gas_val]; norm_num)⟩

/-- Claim C8 counterexample: at the concrete coldOracle input the
pre-expansion exhaust enthalpy falls below the assumed post-expansion
value, and the program does not raise or flag an error: the computation is
total and silently returns a velocity with non-zero imaginary part, the
principal complex square root that the Python float power produces for a
negative base. -/
theorem C8_counterexample :
    h2_gas (baselineRun coldOracle 0.05) < h3_gas
    ∧ (V (baselineRun coldOracle 0.05)).im ≠ 0 := by
  have hlt : h2_gas (baselineRun coldOracle 0.05) < h3_gas := by
    rw [h2_gas_coldOracle, h3_gas_val]; norm_num
  refine ⟨hlt, ?_⟩
  have hneg : (2 * (h2_gas (baselineRun coldOracle 0.05) - h3_gas) : ℚ) < 0 := by linarith
  rw [V, powHalf_of_neg hneg]
  have hpos : (0 : ℝ)
      < Real.sqrt (-((2 * (h2_gas (baselineRun coldOracle 0.05) - h3_gas) : ℚ) : ℝ)) := by
    apply Real.sqrt_pos.mpr
    rw [neg_pos]
    exact_mod_cast hneg
  simp only [Complex.mul_im, Complex.I_re, Complex.I_im, Complex.ofReal_re,
    Complex.ofReal_im, zero_mul, one_mul, zero_add, mul_zero, ne_eq]
  exact hpos.ne'

/-- Claim C10: the value subtracted inside the velocity formula is not an
enthalpy but the assumed exhaust temperature itself: the CO2 query
requests output T given input T, so it returns its input, making
h3_gas = 973 * 0.8 = 778.4 (a kelvin value used in place of J/kg), and
hence, in the real case, v = sqrt (2 * (h2_gas - 778.4)). -/
theorem C10_exhaust_value_is_temperature :
    h3_gas = T_PT 101325 (973 * 0.8) Fluid.CO2
    ∧ h3_gas = 778.4
    ∧ ∀ s : RunState, 0 ≤ h2_gas s - 778.4 →
        V s = ((Real.sqrt (2 * ((h2_gas s : ℝ) - 778.4)) : ℝ) : ℂ) := by
  have h778 : h3_gas = (778.4 : ℚ) := by norm_num [h3_gas, T_PT]
  refine ⟨rfl, h778, ?_⟩
  intro s hs
  have h2 : (0 : ℚ) ≤ 2 * (h2_gas s - h3_gas) := by rw [h778]; linarith
  rw [V, powHalf_of_nonneg h2]
  have harg : ((2 * (h2_gas s - h3_gas) : ℚ) : ℝ) = 2 * ((h2_gas s : ℝ) - 778.4) := by
    rw [h778]
    push_cast
    norm_num
  rw [harg]

/-- Witness for C10 at the zero oracle and the baseline fraction 0.05. -/
theorem C10_exhaust_value_is_temperature_witness :
    h3_gas = (778.4 : ℚ)
    ∧ (0 : ℚ) ≤ h2_gas (baselineRun zeroOracle 0.05) - 778.4
    ∧ V (baselineRun zeroOracle 0.05)
        = ((Real.sqrt (2 * ((h2_gas (baselineRun zeroOracle 0.05) : ℝ) - 778.4)) : ℝ) : ℂ) :=
  ⟨C10_exhaust_value_is_temperature.2.1, by rw [h2_gas_zeroOracle]; norm_num,
    C10_exhaust_value_is_temperature.2.2 (baselineRun zeroOracle 0.05)
      (by rw [h2_gas_zeroOracle]; norm_num)⟩

end RegenRocket
